import Mathlib

/-!
Verification of the paginated log-event retrieval engine of `razy-awslogs`.

The definitions below are a shallow embedding of the Rust sources:
  - `src/cmd/get/stream.rs` (pagination state machine, record normalization),
  - `src/cmd/get/event.rs` and `src/cmd/get/reader.rs` (trait-based reader),
  - `src/cmd/get.rs` (stream construction, runner, execution bridge),
  - `src/cmd/get/printer.rs` (sinks),
  - `src/errors.rs` (error taxonomy).
Machine integers are modelled as `Int`/`Nat` with explicit truncating
division (`Int.tdiv`/`Int.tmod`, the semantics of Rust `/` and `%` on `i64`)
and explicit wrap-around where Rust casts (`as u32` becomes `% 2^32`).
Fallible or panicking code is modelled with `Option` and an explicit
panic-carrying result type.
-/

namespace Razy

/-- Model of `chrono::DateTime<Utc>`: whole seconds since the Unix epoch plus
a subsecond nanosecond field (chrono keeps `0 ≤ nanos < 2·10⁹`, the values
above `10⁹` encoding a leap second). -/
structure DateTime where
  secs : Int
  nanos : Nat
deriving DecidableEq, Repr

/-- chrono `DateTime::timestamp()`: whole seconds since the epoch. -/
def DateTime.timestamp (dt : DateTime) : Int := dt.secs

/-- chrono `DateTime::timestamp_millis()`: milliseconds since the epoch,
`timestamp() * 1000` plus the whole subsecond milliseconds. -/
def DateTime.timestamp_millis (dt : DateTime) : Int :=
  dt.secs * 1000 + Int.ofNat (dt.nanos / 1000000)

/-- Smallest day number (days relative to 1970-01-01) representable by
chrono's `NaiveDate` (year −262144, January 1). -/
def chronoMinDay : Int := -96465659

/-- Largest day number (days relative to 1970-01-01) representable by
chrono's `NaiveDate` (year 262143, December 31). -/
def chronoMaxDay : Int := 95026601

/-- `from_epoch_millis` of `src/cmd/get/stream.rs` lines 43–48 (the identical
helper also appears in `src/cmd/get/reader.rs` lines 19–24):

  `Utc.timestamp(epoch_millis / 1000, ((epoch_millis % 1000) * 1_000_000) as u32)`

Rust `/` and `%` on `i64` truncate toward zero (`Int.tdiv`/`Int.tmod`), and
`as u32` wraps modulo `2^32`.  chrono's `Utc.timestamp` panics (modelled as
`none`) unless the nanosecond argument is below `2_000_000_000` and the day
number `secs.div_euclid(86400)` lies in `NaiveDate`'s representable range. -/
def from_epoch_millis (epoch_millis : Int) : Option DateTime :=
  if ((epoch_millis.tmod 1000) * 1000000) % 4294967296 < 2000000000
      ∧ chronoMinDay ≤ (epoch_millis.tdiv 1000) / 86400
      ∧ (epoch_millis.tdiv 1000) / 86400 ≤ chronoMaxDay
  then some ⟨epoch_millis.tdiv 1000,
             (((epoch_millis.tmod 1000) * 1000000) % 4294967296).toNat⟩
  else none

/-- `LogEvent` of `src/cmd/get/event.rs` lines 3–8. -/
structure LogEvent where
  message : String
  timestamp : DateTime
  stream_name : Option String
deriving DecidableEq, Repr

/-- `LogEventsReadResponse` of `src/cmd/get/stream.rs` lines 37–41: one
normalized page, as yielded by the pagination streams. -/
structure LogEventsReadResponse where
  events : List LogEvent
  next_token : Option String
deriving DecidableEq, Repr

/-- `StreamState` of `src/cmd/get/stream.rs` lines 15–20. -/
inductive StreamState where
  | Initial
  | Running (token : Option String)
  | Complete
deriving DecidableEq, Repr

/-- The `(has_next, next_token)` computation at the top of each unfold step
(`src/cmd/get/stream.rs` lines 103–110, identically lines 191–195). -/
def stepInfo : StreamState → Bool × Option String
  | .Initial => (true, none)
  | .Running token => (token.isSome, token)
  | .Complete => (false, none)

/-- The state transition applied to a successful response
(`src/cmd/get/stream.rs` lines 130–135, identically lines 212–217):
`current_token` is the token just sent (`next_token.clone().unwrap_or(String::new())`),
and the response's token is compared against it. -/
def nextStreamState (current_token : String) (response_token : Option String) :
    StreamState :=
  match response_token with
  | some s => if s = current_token then .Complete else .Running (some s)
  | none => .Complete

/-- One run of the `stream::unfold` pagination loop shared verbatim by
`get_log_events_stream` (`src/cmd/get/stream.rs` lines 102–147) and
`filter_log_events_stream` (lines 190–226), driven against an oracle list of
successful backend responses (already normalized; the state machine inspects
only the response's continuation token, which normalization copies verbatim).
Returns the pages yielded and the number of page requests issued; a request
issued past the end of the oracle is counted but yields nothing. -/
def runStream (st : StreamState) : List LogEventsReadResponse →
    List LogEventsReadResponse × Nat
  | [] => ([], if (stepInfo st).1 then 1 else 0)
  | res :: rest =>
    if (stepInfo st).1 then
      let current_token := ((stepInfo st).2).getD ""
      let r := runStream (nextStreamState current_token res.next_token) rest
      (res :: r.1, r.2 + 1)
    else ([], 0)

/-- In the `Complete` state no request is issued and nothing is yielded. -/
theorem runStream_complete (oracle : List LogEventsReadResponse) :
    runStream .Complete oracle = ([], 0) := by
  cases oracle <;> simp [runStream, stepInfo]

/-- The token chain hypothesis of the termination property: starting from a
just-sent token `cur`, every response carries a present token differing from
the token sent in its own request, except the last response, which echoes the
token sent in its request. -/
inductive EchoChain : String → List LogEventsReadResponse → Prop where
  | last (cur : String) (res : LogEventsReadResponse)
      (h : res.next_token = some cur) : EchoChain cur [res]
  | step (cur : String) (res : LogEventsReadResponse)
      (rest : List LogEventsReadResponse) (t : String)
      (h : res.next_token = some t) (hne : t ≠ cur) (hc : EchoChain t rest) :
      EchoChain cur (res :: rest)

theorem runStream_echoChain {cur : String} {pages : List LogEventsReadResponse}
    (h : EchoChain cur pages) :
    ∀ st : StreamState, (stepInfo st).1 = true →
      ((stepInfo st).2).getD "" = cur →
      ∀ extra, runStream st (pages ++ extra) = (pages, pages.length) := by
  induction h with
  | last cur res hres =>
    intro st hst hcur extra
    simp [runStream, hst, hcur, hres, nextStreamState, runStream_complete]
  | step cur res rest t hres hne hc ih =>
    intro st hst hcur extra
    have := ih (.Running (some t)) (by simp [stepInfo]) (by simp [stepInfo]) extra
    simp [runStream, hst, hcur, hres, nextStreamState, hne, this]

/-- `ErrorKind` of `src/errors.rs` lines 5–21: exactly these five variants. -/
inductive ErrorKind where
  | Clap
  | InsufficientArguments
  | NoSubCommand
  | Rusoto
  | SyncChannel
deriving DecidableEq, Repr

/-- `errors::Error` of `src/errors.rs` lines 25–36: a `Context<ErrorKind>`,
modelled as the discriminating kind plus the cause message it wraps. -/
structure Error where
  kind : ErrorKind
  msg : String
deriving DecidableEq, Repr

/-- `LogEventsReadRequest` of `src/cmd/get/stream.rs` lines 22–26. -/
structure LogEventsReadRequest where
  start_time : Option DateTime
  end_time : Option DateTime
deriving DecidableEq, Repr

/-- `LogEventsReadRequest::start_time_value` (`src/cmd/get/stream.rs` lines
29–31): `self.start_time.map(|t| t.timestamp())` — epoch seconds. -/
def LogEventsReadRequest.start_time_value (r : LogEventsReadRequest) :
    Option Int :=
  r.start_time.map DateTime.timestamp

/-- `LogEventsReadRequest::end_time_value` (`src/cmd/get/stream.rs` lines
32–34): epoch seconds. -/
def LogEventsReadRequest.end_time_value (r : LogEventsReadRequest) :
    Option Int :=
  r.end_time.map DateTime.timestamp

/-- `GetOptions` of `src/cmd/get.rs` lines 17–25. -/
structure GetOptions where
  group_name : String
  stream_name : Option String
  filter_expression : Option String
  start_time : Option DateTime
  end_time : Option DateTime
  watch : Bool
  use_prefix : Bool

/-- The stream value built by `create_log_events_stream`: which of the two
stream constructors of `src/cmd/get/stream.rs` was applied, and with which
arguments (the opaque remote client is omitted). -/
inductive LogEventStreamSpec where
  | filtered (group_name : String) (stream_names : Option (List String))
      (filter_expression : String) (request : LogEventsReadRequest)
  | sequential (group_name : String) (stream_name : String)
      (request : LogEventsReadRequest)
deriving DecidableEq, Repr

/-- `create_log_events_stream` of `src/cmd/get.rs` lines 148–183: a present
filter expression selects `filter_log_events_stream` (with `stream_names =
None`); otherwise `get_log_events_stream` requires a stream name, and its
absence is an `InsufficientArguments` error.  The construction is pure: no
page request is issued here, so an error result means no remote call was
ever made. -/
def create_log_events_stream (options : GetOptions) :
    Except Error LogEventStreamSpec :=
  let request : LogEventsReadRequest :=
    ⟨options.start_time, options.end_time⟩
  match options.filter_expression with
  | some filter =>
    .ok (.filtered options.group_name none filter request)
  | none =>
    match options.stream_name with
    | some stream_name =>
      .ok (.sequential options.group_name stream_name request)
    | none =>
      .error ⟨.InsufficientArguments,
              "Need to specify --stream when omit --filter-expression"⟩

/-- `OneShotRunner::run` of `src/cmd/get.rs` lines 125–140:
`log_events.for_each(|res| { printer.print_events(&res.events); Ok(()) })`.
The stream is modelled as the list of items it produces (pages or the
terminal error).  Returns the pages handed to the printer — one entry per
`print_events` call, in order — and the terminal outcome: the first error,
or `none` (success) once the stream is exhausted. -/
def OneShotRunner.run : List (Except Error LogEventsReadResponse) →
    List LogEventsReadResponse × Option Error
  | [] => ([], none)
  | .ok res :: rest =>
    let r := OneShotRunner.run rest
    (res :: r.1, r.2)
  | .error e :: _ => ([], some e)

/-- C1: if the Nth response's continuation token is present and equal to the
token just sent in the Nth request (the Initial request's comparison token
being the empty string), while every earlier response carries a present,
non-echoed token, then the pagination stream yields exactly the N pages —
the Nth page included — and issues exactly N requests, so no (N+1)th request
is issued no matter how many further oracle responses are available. -/
theorem stream_terminates_on_token_echo
    (pages extra : List LogEventsReadResponse)
    (h : EchoChain "" pages) :
    runStream .Initial (pages ++ extra) = (pages, pages.length) :=
  runStream_echoChain h .Initial rfl rfl extra

theorem stream_terminates_on_token_echo_witness :
    runStream .Initial
      ([⟨[], some "A"⟩, ⟨[], some "A"⟩] ++ [⟨[], some "B"⟩]) =
      ([⟨[], some "A"⟩, ⟨[], some "A"⟩], 2) :=
  stream_terminates_on_token_echo _ _
    (.step "" ⟨[], some "A"⟩ _ "A" rfl (by decide) (.last "A" ⟨[], some "A"⟩ rfl))

/-- C2: whatever the token history (any state in which a request is issued),
a response whose continuation token is absent ends the stream after that
page is yielded: no further request is issued. -/
theorem stream_stops_on_absent_token
    (st : StreamState) (res : LogEventsReadResponse)
    (extra : List LogEventsReadResponse)
    (hst : (stepInfo st).1 = true) (hres : res.next_token = none) :
    runStream st (res :: extra) = ([res], 1) := by
  simp [runStream, hst, hres, nextStreamState, runStream_complete]

theorem stream_stops_on_absent_token_witness :
    runStream (.Running (some "T")) (⟨[], none⟩ :: [⟨[], some "U"⟩]) =
      ([⟨[], none⟩], 1) :=
  stream_stops_on_absent_token (.Running (some "T")) ⟨[], none⟩ [⟨[], some "U"⟩]
    rfl rfl

/-- C9: in the `Initial` state the comparison token is the empty string
(`next_token.clone().unwrap_or(String::new())` with `next_token = None`), so
a very first response carrying `Some("")` is treated as an echo: the stream
yields that page, transitions to `Complete`, and issues no second request. -/
theorem stream_initial_compares_empty_token
    (evs : List LogEvent) (extra : List LogEventsReadResponse) :
    runStream .Initial (⟨evs, some ""⟩ :: extra) = ([⟨evs, some ""⟩], 1) := by
  simp [runStream, stepInfo, nextStreamState, runStream_complete]

/-- C3: a present filter expression always selects the filtered stream, even
when a stream name is also supplied (the match on `filter_expression` comes
first); with neither a filter expression nor a stream name, construction
fails with the `InsufficientArguments` configuration error — and since
construction is pure and precedes any draining of the stream, no remote call
is issued. -/
theorem stream_construction_mode_selection (options : GetOptions) :
    (∀ filter, options.filter_expression = some filter →
      create_log_events_stream options =
        .ok (.filtered options.group_name none filter
              ⟨options.start_time, options.end_time⟩)) ∧
    (options.filter_expression = none → options.stream_name = none →
      create_log_events_stream options =
        .error ⟨.InsufficientArguments,
                "Need to specify --stream when omit --filter-expression"⟩) := by
  constructor
  · intro filter hf
    simp [create_log_events_stream, hf]
  · intro hf hs
    simp [create_log_events_stream, hf, hs]

theorem stream_construction_mode_selection_witness :
    create_log_events_stream ⟨"g", some "s", some "f", none, none, false, true⟩ =
      .ok (.filtered "g" none "f" ⟨none, none⟩) ∧
    create_log_events_stream ⟨"g", none, none, none, none, false, true⟩ =
      .error ⟨.InsufficientArguments,
              "Need to specify --stream when omit --filter-expression"⟩ :=
  ⟨(stream_construction_mode_selection
      ⟨"g", some "s", some "f", none, none, false, true⟩).1 "f" rfl,
   (stream_construction_mode_selection
      ⟨"g", none, none, none, none, false, true⟩).2 rfl rfl⟩

/-- C4: a stream whose second item is a page-retrieval error makes the
Runner return exactly that error after exactly one write to the sink (the
first page), whatever would have followed; and on a stream of pages with no
error the Runner writes every page in order and reports success exactly at
exhaustion. -/
theorem runner_stops_at_first_error :
    (∀ (page : LogEventsReadResponse) (e : Error)
        (rest : List (Except Error LogEventsReadResponse)),
      OneShotRunner.run (.ok page :: .error e :: rest) = ([page], some e)) ∧
    (∀ pages : List LogEventsReadResponse,
      OneShotRunner.run (pages.map .ok) = (pages, none)) := by
  constructor
  · intro page e rest
    simp [OneShotRunner.run]
  · intro pages
    induction pages with
    | nil => simp [OneShotRunner.run]
    | cons p ps ih => simp [OneShotRunner.run, ih]

theorem runner_stops_at_first_error_witness :
    OneShotRunner.run [.ok ⟨[], some "A"⟩, .error ⟨.Rusoto, "boom"⟩] =
      ([⟨[], some "A"⟩], some ⟨.Rusoto, "boom"⟩) :=
  runner_stops_at_first_error.1 ⟨[], some "A"⟩ ⟨.Rusoto, "boom"⟩ []

theorem stream_initial_compares_empty_token_witness :
    runStream .Initial [⟨[], some ""⟩, ⟨[], some "X"⟩] =
      ([⟨[], some ""⟩], 1) :=
  stream_initial_compares_empty_token [] [⟨[], some "X"⟩]

/-- Result of Rust code that may panic: either the value, or the panic
message of the aborted thread. -/
inductive Panics (α : Type) where
  | ok (value : α)
  | panicked (msg : String)
deriving DecidableEq, Repr

/-- Rust `Option::unwrap()`: the value, or a panic on `None`. -/
def unwrapOption {α : Type} : Option α → Panics α
  | some a => .ok a
  | none => .panicked "called `Option::unwrap()` on a `None` value"

/-- `from_epoch_millis` as executed: chrono's `Utc.timestamp` unwraps a
`LocalResult`, so an out-of-range argument is a panic. -/
def fromEpochMillisPanics (epoch_millis : Int) : Panics DateTime :=
  match from_epoch_millis epoch_millis with
  | some dt => .ok dt
  | none => .panicked "No such local time"

/-- `rusoto_logs::OutputLogEvent` (all fields optional on the wire). -/
structure OutputLogEvent where
  ingestion_time : Option Int
  message : Option String
  timestamp : Option Int
deriving DecidableEq, Repr

/-- `rusoto_logs::FilteredLogEvent` (all fields optional on the wire). -/
structure FilteredLogEvent where
  event_id : Option String
  ingestion_time : Option Int
  log_stream_name : Option String
  message : Option String
  timestamp : Option Int
deriving DecidableEq, Repr

/-- `impl From<(OutputLogEvent, String)> for LogEvent`
(`src/cmd/get/stream.rs` lines 50–58): `message: event.message.unwrap()`,
`timestamp: from_epoch_millis(event.timestamp.unwrap())`, and the stream
name supplied from the reader's configuration. -/
def LogEvent.from_output_log_event (event : OutputLogEvent)
    (stream_name : String) : Panics LogEvent :=
  match unwrapOption event.message with
  | .panicked m => .panicked m
  | .ok message =>
    match unwrapOption event.timestamp with
    | .panicked m => .panicked m
    | .ok ts =>
      match fromEpochMillisPanics ts with
      | .panicked m => .panicked m
      | .ok timestamp => .ok ⟨message, timestamp, some stream_name⟩

/-- `impl From<FilteredLogEvent> for LogEvent`
(`src/cmd/get/stream.rs` lines 150–158): same unwraps, with the stream name
taken from the per-record field. -/
def LogEvent.from_filtered_log_event (event : FilteredLogEvent) :
    Panics LogEvent :=
  match unwrapOption event.message with
  | .panicked m => .panicked m
  | .ok message =>
    match unwrapOption event.timestamp with
    | .panicked m => .panicked m
    | .ok ts =>
      match fromEpochMillisPanics ts with
      | .panicked m => .panicked m
      | .ok timestamp => .ok ⟨message, timestamp, event.log_stream_name⟩

/-- `Payload` of `src/cmd/get.rs` lines 142–146. -/
inductive Payload where
  | Done
  | Failure (e : Error)
deriving DecidableEq, Repr

/-- The sending side of the execution bridge (`src/cmd/get.rs` lines
215–224): the runner future is wrapped with `map_err` (sends `Failure(e)`
when it fails) and `map` (sends `Done` when it completes); exactly one of
the two closures runs, on the single completion of the future. -/
def bridge_send (outcome : Except Error Unit) : List Payload :=
  match outcome with
  | .ok _ => [.Done]
  | .error e => [.Failure e]

/-- The receiving side of the execution bridge (`src/cmd/get.rs` lines
230–236): a failed `receiver.recv()` is contextualized as a `SyncChannel`
error; `Done` is success; `Failure(e)` returns `e` itself. -/
def bridge_receive (received : Option Payload) : Except Error Unit :=
  match received with
  | some .Done => .ok ()
  | some (.Failure e) => .error e
  | none =>
    .error ⟨.SyncChannel, "receiving on an empty and disconnected channel"⟩

/-- C5 counterexample: converting a raw record whose message (and timestamp)
field is absent does not produce a `MalformedRecord` error value returned to
the caller — it aborts by panic (`Option::unwrap` on `None`), for both the
sequential-read record type and the filtered-search record type. -/
theorem record_conversion_counterexample :
    LogEvent.from_output_log_event ⟨none, none, none⟩ "the-stream" =
      .panicked "called `Option::unwrap()` on a `None` value" ∧
    LogEvent.from_filtered_log_event ⟨none, none, none, none, none⟩ =
      .panicked "called `Option::unwrap()` on a `None` value" :=
  ⟨rfl, rfl⟩

/-- C5 amended: converting a raw backend record whose message field or
timestamp field is absent aborts by panic (the unwrap of the missing field),
for both record types; no `MalformedRecord` condition is produced and the
error taxonomy of `src/errors.rs` has no such variant (its five variants are
exactly Clap, InsufficientArguments, NoSubCommand, Rusoto, SyncChannel). -/
theorem record_conversion_panics_on_missing_field :
    (∀ (event : OutputLogEvent) (stream_name : String),
      event.message = none ∨ event.timestamp = none →
      LogEvent.from_output_log_event event stream_name =
        .panicked "called `Option::unwrap()` on a `None` value") ∧
    (∀ event : FilteredLogEvent,
      event.message = none ∨ event.timestamp = none →
      LogEvent.from_filtered_log_event event =
        .panicked "called `Option::unwrap()` on a `None` value") ∧
    (∀ k : ErrorKind,
      k = .Clap ∨ k = .InsufficientArguments ∨ k = .NoSubCommand ∨
        k = .Rusoto ∨ k = .SyncChannel) := by
  refine ⟨?_, ?_, ?_⟩
  · rintro ⟨it, msg, ts⟩ stream_name (h | h) <;> subst h
    · simp [LogEvent.from_output_log_event, unwrapOption]
    · cases msg <;> simp [LogEvent.from_output_log_event, unwrapOption]
  · rintro ⟨eid, it, sn, msg, ts⟩ (h | h) <;> subst h
    · simp [LogEvent.from_filtered_log_event, unwrapOption]
    · cases msg <;> simp [LogEvent.from_filtered_log_event, unwrapOption]
  · intro k
    cases k <;> simp

theorem record_conversion_panics_on_missing_field_witness :
    LogEvent.from_output_log_event ⟨some 0, some "hello", none⟩ "s" =
      .panicked "called `Option::unwrap()` on a `None` value" :=
  record_conversion_panics_on_missing_field.1 ⟨some 0, some "hello", none⟩ "s"
    (Or.inr rfl)

/-- C6: the bridge sends exactly one outcome message — `Done` on success,
`Failure(e)` on the first error — and composing with the receiving side
returns the outcome unchanged: `Ok(())` for success, the very error for
failure, and a `SyncChannel` error (a kind distinct from the `Rusoto` kind
carried by retrieval failures) when no message can be received. -/
theorem bridge_single_outcome :
    (∀ outcome : Except Error Unit, (bridge_send outcome).length = 1) ∧
    (∀ outcome : Except Error Unit,
      bridge_receive (bridge_send outcome).head? = outcome) ∧
    bridge_receive (some .Done) = .ok () ∧
    (∀ e : Error, bridge_receive (some (.Failure e)) = .error e) ∧
    bridge_receive none =
      .error ⟨.SyncChannel, "receiving on an empty and disconnected channel"⟩ ∧
    ErrorKind.SyncChannel ≠ ErrorKind.Rusoto := by
  refine ⟨?_, ?_, rfl, ?_, rfl, by decide⟩
  · intro outcome
    cases outcome <;> rfl
  · intro outcome
    cases outcome <;> rfl
  · intro e
    rfl

theorem bridge_single_outcome_witness :
    bridge_receive (bridge_send (.error ⟨.Rusoto, "boom"⟩)).head? =
      .error ⟨.Rusoto, "boom"⟩ :=
  bridge_single_outcome.2.1 (.error ⟨.Rusoto, "boom"⟩)

theorem Int_neg_tmod (a b : Int) : (-a).tmod b = -(a.tmod b) := by
  rw [Int.tmod_def, Int.tmod_def, Int.neg_tdiv]
  ring

/-- C7 amended: for every epoch-millisecond value on which the conversion
succeeds (it panics for negative values that are not a multiple of 1000 —
the wrapping `as u32` cast lands the nanosecond field outside chrono's
range — and for values whose date falls outside chrono's representable
range), converting back to epoch milliseconds yields the original value
exactly. -/
theorem from_epoch_millis_roundtrip (epoch_millis : Int) (dt : DateTime)
    (h : from_epoch_millis epoch_millis = some dt) :
    dt.timestamp_millis = epoch_millis := by
  rw [from_epoch_millis] at h
  split at h
  case isTrue hc =>
    obtain ⟨hn, -, -⟩ := hc
    injection h with h
    subst h
    have h1 := Int.tdiv_add_tmod epoch_millis 1000
    have h2 : epoch_millis.tmod 1000 < 1000 :=
      Int.tmod_lt_of_pos epoch_millis (by norm_num)
    have h3 : -1000 < epoch_millis.tmod 1000 := by
      have h4 : (-epoch_millis).tmod 1000 < 1000 :=
        Int.tmod_lt_of_pos (-epoch_millis) (by norm_num)
      rw [Int_neg_tmod] at h4
      omega
    simp only [DateTime.timestamp_millis, Int.ofNat_eq_natCast]
    omega
  case isFalse =>
    exact Option.noConfusion h

/-- C7 counterexample: at the epoch-millisecond value −1 the conversion does
not produce a timestamp at all: `(-1 % 1000) * 1_000_000 = -1_000_000`, the
`as u32` cast wraps it to 4293967296, and chrono's `Utc.timestamp` rejects
any nanosecond value of 2·10⁹ or more, so the call panics instead of
returning a DateTime whose round-trip could equal −1. -/
theorem from_epoch_millis_counterexample : from_epoch_millis (-1) = none := by
  decide

theorem from_epoch_millis_roundtrip_witness :
    from_epoch_millis 1234 = some ⟨1, 234000000⟩ ∧
    DateTime.timestamp_millis ⟨1, 234000000⟩ = 1234 :=
  ⟨by decide, from_epoch_millis_roundtrip 1234 ⟨1, 234000000⟩ (by decide)⟩

/-- Proleptic-Gregorian civil date (year, month, day) from a day number
counted from 1970-01-01; models the calendar arithmetic behind chrono's
date formatting. -/
def civilFromDays (day : Int) : Int × Nat × Nat :=
  let z := day + 719468
  let era := z / 146097
  let doe := (z - era * 146097).toNat
  let yoe := (doe - doe / 1460 + doe / 36524 - doe / 146096) / 365
  let y := (yoe : Int) + era * 400
  let doy := doe - (365 * yoe + yoe / 4 - yoe / 100)
  let mp := (5 * doy + 2) / 153
  let d := doy - (153 * mp + 2) / 5 + 1
  let m := if mp < 10 then mp + 3 else mp - 9
  (if m ≤ 2 then y + 1 else y, m, d)

def pad2 (n : Nat) : String :=
  if n < 10 then "0" ++ toString n else toString n

/-- chrono `format("%Y-%m-%d %H:%M:%S")` of a timestamp viewed in a fixed
offset (`with_timezone(&tz)` shifts the displayed wall-clock time by the
offset; the `%Y` zero-padding to four digits is invisible for the years at
issue here). -/
def formatYmdHms (dt : DateTime) (offset_secs : Int) : String :=
  let t := dt.secs + offset_secs
  let ymd := civilFromDays (t / 86400)
  let sod := (t % 86400).toNat
  toString ymd.1 ++ "-" ++ pad2 ymd.2.1 ++ "-" ++ pad2 ymd.2.2 ++ " " ++
    pad2 (sod / 3600) ++ ":" ++ pad2 (sod % 3600 / 60) ++ ":" ++ pad2 (sod % 60)

/-- `TZ_ASIA_TOKYO` of `src/cmd/get.rs` lines 27–29:
`FixedOffset::east(9 * 60 * 60)`, modelled by its offset in seconds. -/
def TZ_ASIA_TOKYO : Int := 9 * 60 * 60

/-- `Printer::puts` (`src/cmd/get/printer.rs` lines 9–15): the text written
to standard output for one event — `print!` verbatim when the text already
ends in a newline (`ends_with("\n")`, expressed here on the character list),
`println!` (an appended newline) otherwise. -/
def putsText (text : String) : String :=
  if text.data.getLast? = some (Char.ofNat 10) then text else text ++ "\n"

/-- `LogPrinter::decorate` (`src/cmd/get/printer.rs` lines 45–52):
`Color::Green.paint(text)` when colorization is enabled, the plain text
otherwise. -/
def decorate (enable_color : Bool) (text : String) : String :=
  if enable_color then "\x1b[32m" ++ text ++ "\x1b[0m" else text

/-- `MessagePrinter::print_events` (`src/cmd/get/printer.rs` lines 29–35):
the output chunks written, one per event, in order. -/
def MessagePrinter.print_events (events : List LogEvent) : List String :=
  events.map (fun event => putsText event.message)

/-- `LogPrinter::print_events` (`src/cmd/get/printer.rs` lines 62–78): per
event, the bracketed local-time prefix (timestamp shifted to
`TZ_ASIA_TOKYO`), decorated, then a space and the message. -/
def LogPrinter.print_events (enable_color : Bool) (events : List LogEvent) :
    List String :=
  events.map (fun event =>
    putsText
      (decorate enable_color
          ("[" ++ formatYmdHms event.timestamp TZ_ASIA_TOKYO ++ "]")
        ++ " " ++ event.message))

/-- `rusoto_logs::GetLogEventsRequest`, the sequential-read wire request
(`..Default::default()` leaves `limit` and `start_from_head` at `None` in
both call sites). -/
structure GetLogEventsRequest where
  start_time : Option Int
  end_time : Option Int
  log_group_name : String
  log_stream_name : String
  next_token : Option String
  limit : Option Int
  start_from_head : Option Bool
deriving DecidableEq, Repr

/-- `LogEventsRequest` of `src/cmd/get/event.rs` lines 10–14. -/
structure LogEventsRequest where
  start_time : Option DateTime
  end_time : Option DateTime
deriving DecidableEq, Repr

/-- `LogEventsRequest::start_time_value` (`src/cmd/get/event.rs` lines
17–19): `self.start_time.map(|t| t.timestamp_millis())` — epoch
milliseconds. -/
def LogEventsRequest.start_time_value (r : LogEventsRequest) : Option Int :=
  r.start_time.map DateTime.timestamp_millis

/-- `LogEventsRequest::end_time_value` (`src/cmd/get/event.rs` lines 20–22):
epoch milliseconds. -/
def LogEventsRequest.end_time_value (r : LogEventsRequest) : Option Int :=
  r.end_time.map DateTime.timestamp_millis

/-- The wire request built inside `get_log_events_stream`
(`src/cmd/get/stream.rs` lines 114–121). -/
def streamWireRequest (group_name stream_name : String)
    (request : LogEventsReadRequest) (next_token : Option String) :
    GetLogEventsRequest :=
  ⟨request.start_time_value, request.end_time_value, group_name, stream_name,
   next_token, none, none⟩

/-- The wire request built inside `GetLogEventsReader::read_log_events`
(`src/cmd/get/reader.rs` lines 59–66). -/
def readerWireRequest (group_name stream_name : String)
    (request : LogEventsRequest) (next_token : Option String) :
    GetLogEventsRequest :=
  ⟨request.start_time_value, request.end_time_value, group_name, stream_name,
   next_token, none, none⟩

/-- C8: for the event with message `hello` and UTC timestamp
2023-01-01T00:00:00Z (epoch second 1672531200), displayed at offset UTC+9
with colorization disabled, the Prefixed Sink writes the line
`[2023-01-01 09:00:00] hello` and the Bare Sink writes the line `hello`
(each line being its content plus the newline `puts` appends). -/
theorem printer_formatting :
    LogPrinter.print_events false [⟨"hello", ⟨1672531200, 0⟩, none⟩] =
      ["[2023-01-01 09:00:00] hello\n"] ∧
    MessagePrinter.print_events [⟨"hello", ⟨1672531200, 0⟩, none⟩] =
      ["hello\n"] := by
  constructor <;> decide

/-- C10 counterexample: at the start bound 1970-01-01T00:00:01Z (epoch
second 1, epoch millisecond 1000) with identical group name, stream name and
token, the two sequential-read implementations build different wire
requests: the stream-based one sends `start_time = Some(1)` (seconds), the
trait-based one `Some(1000)` (milliseconds). -/
theorem wire_request_counterexample :
    streamWireRequest "g" "s" ⟨some ⟨1, 0⟩, none⟩ none ≠
      readerWireRequest "g" "s" ⟨some ⟨1, 0⟩, none⟩ none := by
  decide

/-- C10 amended: for the same group name, stream name, time bounds and
continuation token the two sequential-read implementations build wire
requests that agree on every field other than the time bounds — and agree
fully when both bounds are absent — but a present bound is sent as epoch
seconds (`timestamp()`) by the stream-based implementation and as epoch
milliseconds (`timestamp_millis()`) by the trait-based one, so the numeric
`start_time`/`end_time` values differ whenever a present bound has distinct
second and millisecond counts. -/
theorem wire_request_comparison (group_name stream_name : String)
    (st et : Option DateTime) (next_token : Option String) :
    (streamWireRequest group_name stream_name ⟨st, et⟩ next_token).log_group_name =
      (readerWireRequest group_name stream_name ⟨st, et⟩ next_token).log_group_name ∧
    (streamWireRequest group_name stream_name ⟨st, et⟩ next_token).log_stream_name =
      (readerWireRequest group_name stream_name ⟨st, et⟩ next_token).log_stream_name ∧
    (streamWireRequest group_name stream_name ⟨st, et⟩ next_token).next_token =
      (readerWireRequest group_name stream_name ⟨st, et⟩ next_token).next_token ∧
    (streamWireRequest group_name stream_name ⟨st, et⟩ next_token).limit =
      (readerWireRequest group_name stream_name ⟨st, et⟩ next_token).limit ∧
    (streamWireRequest group_name stream_name ⟨st, et⟩ next_token).start_from_head =
      (readerWireRequest group_name stream_name ⟨st, et⟩ next_token).start_from_head ∧
    (streamWireRequest group_name stream_name ⟨st, et⟩ next_token).start_time =
      st.map DateTime.timestamp ∧
    (readerWireRequest group_name stream_name ⟨st, et⟩ next_token).start_time =
      st.map DateTime.timestamp_millis ∧
    (streamWireRequest group_name stream_name ⟨st, et⟩ next_token).end_time =
      et.map DateTime.timestamp ∧
    (readerWireRequest group_name stream_name ⟨st, et⟩ next_token).end_time =
      et.map DateTime.timestamp_millis ∧
    (st = none → et = none →
      streamWireRequest group_name stream_name ⟨st, et⟩ next_token =
        readerWireRequest group_name stream_name ⟨st, et⟩ next_token) := by
  refine ⟨rfl, rfl, rfl, rfl, rfl, rfl, rfl, rfl, rfl, ?_⟩
  rintro rfl rfl
  rfl

theorem wire_request_comparison_witness :
    streamWireRequest "g" "s" ⟨none, none⟩ (some "T") =
      readerWireRequest "g" "s" ⟨none, none⟩ (some "T") := by
  obtain ⟨-, -, -, -, -, -, -, -, -, h⟩ :=
    wire_request_comparison "g" "s" none none (some "T")
  exact h rfl rfl

end Razy
